import Mathlib

/-!
Verification of the `FinancialEngine` calculation core of the
financial-horizon-estimator repository (`streamlit_app.py`).

The engine is embedded shallowly: the client profile becomes a structure
over exact rationals (Python floats are modelled as ℚ), the four
calculation methods become pure Lean functions translated line by line
from the source, and the one genuinely fallible computation (division by
a possibly-zero discount-rate constant) is modelled with `Except`.
-/

/-- The client profile stored by `FinancialEngine.__init__`.  Rates are
stored already normalized (input percentage divided by 100), exactly as
the constructor does. -/
structure FinancialEngine where
  age : ℤ
  income : ℚ
  dependents : ℤ
  debt : ℚ
  savings : ℚ
  retire_age : ℤ
  inflation_rate : ℚ
  investment_return : ℚ
  deriving DecidableEq, Repr

/-- Class constant `SAFE_WITHDRAWAL_RATE = 0.04`. -/
def SAFE_WITHDRAWAL_RATE : ℚ := 4 / 100

/-- Class constant `INCOME_REPLACEMENT_RATIO = 0.75`. -/
def INCOME_REPLACEMENT_RATIO : ℚ := 75 / 100

/-- Class constant `INSURANCE_DISCOUNT_RATE = 0.03`. -/
def INSURANCE_DISCOUNT_RATE : ℚ := 3 / 100

/-- `FinancialEngine.__init__`: stores the eight raw inputs, dividing the
two percentage rates by 100.  The Python constructor performs no
validation whatsoever. -/
def FinancialEngine.init (age : ℤ) (income : ℚ) (dependents : ℤ)
    (debt : ℚ) (savings : ℚ) (retire_age : ℤ)
    (inflation_rate : ℚ) (investment_return : ℚ) : FinancialEngine :=
  { age := age
    income := income
    dependents := dependents
    debt := debt
    savings := savings
    retire_age := retire_age
    inflation_rate := inflation_rate / 100
    investment_return := investment_return / 100 }

/-- `FinancialEngine.calc_insurance_gap`.  Returns
`(max 0 total_need, max 0 gross_need)`; short-circuits to `(0, 0)` when
there are no dependents. -/
def calc_insurance_gap (e : FinancialEngine) : ℚ × ℚ :=
  let years_support : ℤ := if 0 < e.dependents then 20 else 0
  if years_support = 0 then (0, 0)
  else
    let annual_support := e.income * (75 / 100)
    let pv_factor :=
      (1 - (1 + INSURANCE_DISCOUNT_RATE) ^ (-years_support)) / INSURANCE_DISCOUNT_RATE
    let gross_need := annual_support * pv_factor
    let total_need := gross_need + e.debt - e.savings
    (max 0 total_need, max 0 gross_need)

/-- `FinancialEngine.calc_insurance_gap` with the instance attribute
`INSURANCE_DISCOUNT_RATE` taken as a parameter `r`, so that a test
override of the constant can be modelled.  The Python divisions
`... ** (-years_support)` and `... / r` raise `ZeroDivisionError` when
`1 + r = 0` (zero base, negative exponent) or `r = 0`; those paths are
modelled with `Except.error`. -/
def calc_insurance_gap_at (e : FinancialEngine) (r : ℚ) : Except String (ℚ × ℚ) :=
  let years_support : ℤ := if 0 < e.dependents then 20 else 0
  if years_support = 0 then Except.ok (0, 0)
  else if 1 + r = 0 then Except.error "ZeroDivisionError"
  else if r = 0 then Except.error "ZeroDivisionError"
  else
    let annual_support := e.income * (75 / 100)
    let pv_factor := (1 - (1 + r) ^ (-years_support)) / r
    let gross_need := annual_support * pv_factor
    let total_need := gross_need + e.debt - e.savings
    Except.ok (max 0 total_need, max 0 gross_need)

/-- `FinancialEngine.calc_retirement_target`.  Returns
`(target_corpus, years_to_retire)`, or `(0, 0)` when retirement has been
reached. -/
def calc_retirement_target (e : FinancialEngine) : ℚ × ℤ :=
  let years_to_retire := e.retire_age - e.age
  if years_to_retire ≤ 0 then (0, 0)
  else
    let current_annual_need := e.income * INCOME_REPLACEMENT_RATIO
    let future_annual_need :=
      current_annual_need * (1 + e.inflation_rate) ^ years_to_retire
    let target_corpus := future_annual_need / SAFE_WITHDRAWAL_RATE
    (target_corpus, years_to_retire)

/-- `numpy_financial.pmt` with `when = 'end'`: the periodic payment
solving `fv + pv*(1+rate)^nper + pmt*((1+rate)^nper - 1)/rate = 0`,
with the factor degenerating to `nper` when `rate = 0`. -/
def npf_pmt (rate : ℚ) (nper : ℤ) (pv : ℚ) (fv : ℚ) : ℚ :=
  let temp := (1 + rate) ^ nper
  let fact := if rate = 0 then (nper : ℚ) else (temp - 1) / rate
  (-(fv + pv * temp)) / fact

/-- `FinancialEngine.calc_monthly_savings_req`: the `npf.pmt` payment at
the simple monthly rate `investment_return / 12` over
`years_to_retire * 12` months, with `pv = -savings`,
`fv = target_corpus`, sign-flipped before returning. -/
def calc_monthly_savings_req (e : FinancialEngine)
    (target_corpus : ℚ) (years_to_retire : ℤ) : ℚ :=
  if years_to_retire ≤ 0 then 0
  else
    let monthly_rate := e.investment_return / 12
    let months := years_to_retire * 12
    npf_pmt monthly_rate months (-e.savings) target_corpus * (-1)

/-- The integer risk score accumulated by
`FinancialEngine.get_risk_profile` before the final thresholding:
time-horizon component plus leverage component. -/
def riskScoreCode (e : FinancialEngine) : ℤ :=
  let years := e.retire_age - e.age
  let debt_ratio := e.debt / (if 0 < e.income then e.income else 1)
  (if 20 < years then 3 else if 10 < years then 2 else 1) +
    (if debt_ratio < 3 / 10 then 2 else if debt_ratio < 1 then 1 else -1)

/-- `FinancialEngine.get_risk_profile`: thresholds the accumulated score
at 4 and 3. -/
def get_risk_profile (e : FinancialEngine) : String :=
  if 4 ≤ riskScoreCode e then "High (Growth Focused)"
  else if 3 ≤ riskScoreCode e then "Medium (Balanced)"
  else "Low (Preservation Focused)"

/-! ## Theorems -/

/-- C1: `calc_retirement_target` returns `(0, 0)` when
`retire_age - age ≤ 0`; otherwise it returns
`(income * 0.75 * (1 + inflation_rate)^years / 0.04, years)` with
`years = retire_age - age`, and both outputs are non-negative. -/
theorem calc_retirement_target_spec (e : FinancialEngine)
    (hinc : 0 ≤ e.income) (hinfl : -1 ≤ e.inflation_rate) :
    (e.retire_age - e.age ≤ 0 → calc_retirement_target e = (0, 0)) ∧
    (0 < e.retire_age - e.age →
      calc_retirement_target e =
        (e.income * (75 / 100) * (1 + e.inflation_rate) ^ (e.retire_age - e.age) / (4 / 100),
         e.retire_age - e.age)) ∧
    0 ≤ (calc_retirement_target e).1 ∧ 0 ≤ (calc_retirement_target e).2 := by
  have hbase : (0 : ℚ) ≤ 1 + e.inflation_rate := by linarith
  refine ⟨fun h => by simp [calc_retirement_target, h], fun h => ?_, ?_⟩
  · simp only [calc_retirement_target]
    rw [if_neg (not_le.mpr h)]
    norm_num [ INCOME_REPLACEMENT_RATIO, SAFE_WITHDRAWAL_RATE]
  · by_cases h : e.retire_age - e.age ≤ 0
    · simp [calc_retirement_target, h]
    · have hy : 0 < e.retire_age - e.age := lt_of_not_le h
      simp only [calc_retirement_target, if_neg h]
      refine ⟨div_nonneg (mul_nonneg (mul_nonneg hinc ?_) (zpow_nonneg hbase _)) ?_, le_of_lt hy⟩
      · norm_num [ INCOME_REPLACEMENT_RATIO]
      · norm_num [SAFE_WITHDRAWAL_RATE]

/-- C1 witness: the theorem applied to the concrete profile
`(35, 85000, 2, 25000, 40000, 65, 2.5, 7)`. -/
theorem calc_retirement_target_spec_witness :
    calc_retirement_target (FinancialEngine.init 35 85000 2 25000 40000 65 (5 / 2) 7) =
      (85000 * (75 / 100) * (1 + (5 / 2) / 100 : ℚ) ^ (30 : ℤ) / (4 / 100), 30) ∧
    0 ≤ (calc_retirement_target (FinancialEngine.init 35 85000 2 25000 40000 65 (5 / 2) 7)).1 := by
  have h := calc_retirement_target_spec (FinancialEngine.init 35 85000 2 25000 40000 65 (5 / 2) 7)
    (by norm_num [FinancialEngine.init]) (by norm_num [FinancialEngine.init])
  refine ⟨?_, h.2.2.1⟩
  have h2 := h.2.1 (by norm_num [FinancialEngine.init])
  simpa [FinancialEngine.init] using h2

/-- The concrete present-value annuity factor used by the insurance
calculation is non-negative. -/
theorem pv_factor_nonneg :
    (0 : ℚ) ≤ (1 - (1 + 3 / 100 : ℚ) ^ (-20 : ℤ)) / (3 / 100) := by
  norm_num

/-- With dependents present, `calc_insurance_gap` unfolds to the
max-floored pair built from the gross need
`income * 0.75 * pv_factor(0.03, 20)`. -/
theorem calc_insurance_gap_eq_of_pos (e : FinancialEngine) (hdep : 0 < e.dependents) :
    calc_insurance_gap e =
      (max 0 (e.income * (75 / 100) * ((1 - (1 + 3 / 100 : ℚ) ^ (-20 : ℤ)) / (3 / 100))
          + e.debt - e.savings),
       max 0 (e.income * (75 / 100) * ((1 - (1 + 3 / 100 : ℚ) ^ (-20 : ℤ)) / (3 / 100)))) := by
  simp only [calc_insurance_gap, INSURANCE_DISCOUNT_RATE, if_pos hdep]
  norm_num

/-- C2: for a profile with dependents, `calc_insurance_gap` returns
`(max 0 (gross + debt - savings), gross)` with
`gross = income * 0.75 * pv_factor` and
`pv_factor = (1 - 1.03^(-20)) / 0.03`, and both components are
non-negative. -/
theorem calc_insurance_gap_spec (e : FinancialEngine)
    (hdep : 0 < e.dependents) (hinc : 0 ≤ e.income) :
    calc_insurance_gap e =
      (max 0 (e.income * (75 / 100) * ((1 - (1 + 3 / 100 : ℚ) ^ (-20 : ℤ)) / (3 / 100))
          + e.debt - e.savings),
       e.income * (75 / 100) * ((1 - (1 + 3 / 100 : ℚ) ^ (-20 : ℤ)) / (3 / 100))) ∧
    0 ≤ (calc_insurance_gap e).1 ∧ 0 ≤ (calc_insurance_gap e).2 := by
  have hgross : (0 : ℚ) ≤
      e.income * (75 / 100) * ((1 - (1 + 3 / 100 : ℚ) ^ (-20 : ℤ)) / (3 / 100)) :=
    mul_nonneg (mul_nonneg hinc (by norm_num)) pv_factor_nonneg
  have heq := calc_insurance_gap_eq_of_pos e hdep
  refine ⟨?_, ?_, ?_⟩
  · rw [heq, max_eq_right hgross]
  · rw [heq]
    exact le_max_left 0 _
  · rw [heq]
    exact le_max_left 0 _

/-- C2 witness: the theorem applied to the concrete profile
`(35, 85000, 2, 25000, 40000, 65, 2.5, 7)`. -/
theorem calc_insurance_gap_spec_witness :
    calc_insurance_gap (FinancialEngine.init 35 85000 2 25000 40000 65 (5 / 2) 7) =
      (max 0 (85000 * (75 / 100) * ((1 - (1 + 3 / 100 : ℚ) ^ (-20 : ℤ)) / (3 / 100))
          + 25000 - 40000),
       85000 * (75 / 100) * ((1 - (1 + 3 / 100 : ℚ) ^ (-20 : ℤ)) / (3 / 100))) ∧
    0 ≤ (calc_insurance_gap (FinancialEngine.init 35 85000 2 25000 40000 65 (5 / 2) 7)).1 := by
  have h := calc_insurance_gap_spec (FinancialEngine.init 35 85000 2 25000 40000 65 (5 / 2) 7)
    (by norm_num [FinancialEngine.init]) (by norm_num [FinancialEngine.init])
  exact ⟨by simpa [FinancialEngine.init] using h.1, h.2.1⟩

/-- C5: with no dependents `calc_insurance_gap` returns `(0, 0)`, and the
result depends on `dependents` only through its sign: any two positive
dependent counts give identical outputs. -/
theorem calc_insurance_gap_dependents_cliff (e : FinancialEngine) :
    (e.dependents = 0 → calc_insurance_gap e = (0, 0)) ∧
    ∀ d1 d2 : ℤ, 0 < d1 → 0 < d2 →
      calc_insurance_gap { e with dependents := d1 } =
        calc_insurance_gap { e with dependents := d2 } := by
  constructor
  · intro h
    simp [calc_insurance_gap, h]
  · intro d1 d2 h1 h2
    simp [calc_insurance_gap, h1, h2]

/-- C5 witness: `(0, 0)` at a dependent-free profile, and agreement of the
outputs at dependents `1` and `5` on an otherwise identical profile. -/
theorem calc_insurance_gap_dependents_cliff_witness :
    calc_insurance_gap (FinancialEngine.init 40 50000 0 10000 5000 65 3 7) = (0, 0) ∧
    calc_insurance_gap { FinancialEngine.init 40 50000 0 10000 5000 65 3 7 with dependents := 1 } =
      calc_insurance_gap { FinancialEngine.init 40 50000 0 10000 5000 65 3 7 with dependents := 5 } :=
  ⟨(calc_insurance_gap_dependents_cliff _).1 rfl,
   (calc_insurance_gap_dependents_cliff _).2 1 5 (by norm_num) (by norm_num)⟩

/-- C7: the net insurance need is monotonically non-decreasing in debt,
non-increasing in savings, and never negative. -/
theorem calc_insurance_gap_net_monotone (e : FinancialEngine) (d1 d2 s1 s2 : ℚ)
    (hd : d1 ≤ d2) (hs : s1 ≤ s2) :
    (calc_insurance_gap { e with debt := d1 }).1 ≤
      (calc_insurance_gap { e with debt := d2 }).1 ∧
    (calc_insurance_gap { e with savings := s2 }).1 ≤
      (calc_insurance_gap { e with savings := s1 }).1 ∧
    0 ≤ (calc_insurance_gap e).1 := by
  by_cases hdep : 0 < e.dependents
  · rw [calc_insurance_gap_eq_of_pos { e with debt := d1 } hdep,
        calc_insurance_gap_eq_of_pos { e with debt := d2 } hdep,
        calc_insurance_gap_eq_of_pos { e with savings := s2 } hdep,
        calc_insurance_gap_eq_of_pos { e with savings := s1 } hdep,
        calc_insurance_gap_eq_of_pos e hdep]
    refine ⟨?_, ?_, le_max_left 0 _⟩
    · show max 0 (e.income * (75 / 100) * ((1 - (1 + 3 / 100 : ℚ) ^ (-20 : ℤ)) / (3 / 100))
          + d1 - e.savings) ≤
        max 0 (e.income * (75 / 100) * ((1 - (1 + 3 / 100 : ℚ) ^ (-20 : ℤ)) / (3 / 100))
          + d2 - e.savings)
      exact max_le_max le_rfl (by linarith)
    · show max 0 (e.income * (75 / 100) * ((1 - (1 + 3 / 100 : ℚ) ^ (-20 : ℤ)) / (3 / 100))
          + e.debt - s2) ≤
        max 0 (e.income * (75 / 100) * ((1 - (1 + 3 / 100 : ℚ) ^ (-20 : ℤ)) / (3 / 100))
          + e.debt - s1)
      exact max_le_max le_rfl (by linarith)
  · simp [calc_insurance_gap, hdep]

/-- C7 witness: the theorem applied to a concrete profile with debts
`10000 ≤ 20000` and savings `1000 ≤ 2000`. -/
theorem calc_insurance_gap_net_monotone_witness :
    (calc_insurance_gap { FinancialEngine.init 40 60000 2 5000 3000 65 3 7 with debt := 10000 }).1 ≤
      (calc_insurance_gap { FinancialEngine.init 40 60000 2 5000 3000 65 3 7 with debt := 20000 }).1 ∧
    (calc_insurance_gap { FinancialEngine.init 40 60000 2 5000 3000 65 3 7 with savings := 2000 }).1 ≤
      (calc_insurance_gap { FinancialEngine.init 40 60000 2 5000 3000 65 3 7 with savings := 1000 }).1 ∧
    0 ≤ (calc_insurance_gap (FinancialEngine.init 40 60000 2 5000 3000 65 3 7)).1 :=
  calc_insurance_gap_net_monotone (FinancialEngine.init 40 60000 2 5000 3000 65 3 7)
    10000 20000 1000 2000 (by norm_num) (by norm_num)

/-- C3: with a positive horizon and a nonzero monthly rate,
`calc_monthly_savings_req` equals the sign-flipped ordinary-annuity
payment
`monthly_rate * (target - savings*(1+monthly_rate)^months) / ((1+monthly_rate)^months - 1)`
with `monthly_rate = investment_return / 12` (simple division, not the
compounding-equivalent rate) and `months = years_to_retire * 12`. -/
theorem calc_monthly_savings_req_spec (e : FinancialEngine) (target_corpus : ℚ)
    (years_to_retire : ℤ) (hy : 0 < years_to_retire)
    (hr : e.investment_return / 12 ≠ 0) :
    calc_monthly_savings_req e target_corpus years_to_retire =
      e.investment_return / 12 *
          (target_corpus -
            e.savings * (1 + e.investment_return / 12) ^ (years_to_retire * 12)) /
        ((1 + e.investment_return / 12) ^ (years_to_retire * 12) - 1) := by
  simp only [calc_monthly_savings_req, npf_pmt, if_neg (not_le.mpr hy), if_neg hr]
  rw [div_div_eq_mul_div]
  ring

/-- C3 witness: the theorem applied to the concrete profile
`(35, 85000, 2, 25000, 40000, 65, 2.5, 7)` with target `1000000` over 30
years. -/
theorem calc_monthly_savings_req_spec_witness :
    calc_monthly_savings_req (FinancialEngine.init 35 85000 2 25000 40000 65 (5 / 2) 7)
        1000000 30 =
      7 / 100 / 12 * (1000000 - 40000 * (1 + 7 / 100 / 12 : ℚ) ^ ((30 : ℤ) * 12)) /
        ((1 + 7 / 100 / 12 : ℚ) ^ ((30 : ℤ) * 12) - 1) := by
  have h := calc_monthly_savings_req_spec
    (FinancialEngine.init 35 85000 2 25000 40000 65 (5 / 2) 7) 1000000 30
    (by norm_num) (by norm_num [FinancialEngine.init])
  simpa [FinancialEngine.init] using h

/-- C6: with a zero investment return (hence zero monthly rate) and a
positive horizon, `calc_monthly_savings_req` degenerates exactly to
`(target - savings) / (years * 12)`, the divisor `years * 12` being
nonzero. -/
theorem calc_monthly_savings_req_zero_rate (e : FinancialEngine) (target_corpus : ℚ)
    (years_to_retire : ℤ) (hy : 0 < years_to_retire)
    (h0 : e.investment_return = 0) :
    calc_monthly_savings_req e target_corpus years_to_retire =
      (target_corpus - e.savings) / ((years_to_retire * 12 : ℤ) : ℚ) ∧
    ((years_to_retire * 12 : ℤ) : ℚ) ≠ 0 := by
  constructor
  · simp only [calc_monthly_savings_req, npf_pmt, if_neg (not_le.mpr hy), h0]
    norm_num
    ring
  · have : (0 : ℤ) < years_to_retire * 12 := by positivity
    exact_mod_cast this.ne'

/-- C6 witness: zero-return profile, target `1000000`, 30 years: the
requirement is `(1000000 - 40000) / 360`. -/
theorem calc_monthly_savings_req_zero_rate_witness :
    calc_monthly_savings_req (FinancialEngine.init 35 85000 2 25000 40000 65 (5 / 2) 0)
        1000000 30 =
      (1000000 - 40000) / (((30 : ℤ) * 12 : ℤ) : ℚ) ∧
    (((30 : ℤ) * 12 : ℤ) : ℚ) ≠ 0 := by
  have h := calc_monthly_savings_req_zero_rate
    (FinancialEngine.init 35 85000 2 25000 40000 65 (5 / 2) 0) 1000000 30
    (by norm_num) (by norm_num [FinancialEngine.init])
  constructor
  · have := h.1
    simpa [FinancialEngine.init] using this
  · exact h.2

/-- C4: `get_risk_profile` labels High for a score of at least 4, Medium
for a score of exactly 3, Low for a score of at most 2, where the score
is the sum of the time-horizon component (`+3` for more than 20 years,
`+2` for 11–20 years, else `+1`) and the leverage component (`+2` when
`debt_ratio < 0.3`, `+1` when `0.3 ≤ debt_ratio < 1`, `-1` when
`debt_ratio ≥ 1`), with `debt_ratio = debt / income` when `income > 0`
and `debt / 1` otherwise. -/
theorem get_risk_profile_spec (e : FinancialEngine) :
    (4 ≤ riskScoreCode e → get_risk_profile e = "High (Growth Focused)") ∧
    (riskScoreCode e = 3 → get_risk_profile e = "Medium (Balanced)") ∧
    (riskScoreCode e ≤ 2 → get_risk_profile e = "Low (Preservation Focused)") ∧
    riskScoreCode e =
      (if 20 < e.retire_age - e.age then 3
        else if 10 < e.retire_age - e.age ∧ e.retire_age - e.age ≤ 20 then 2 else 1) +
      (if e.debt / (if 0 < e.income then e.income else 1) < 3 / 10 then 2
        else if 3 / 10 ≤ e.debt / (if 0 < e.income then e.income else 1) ∧
            e.debt / (if 0 < e.income then e.income else 1) < 1 then 1 else -1) := by
  refine ⟨?_, ?_, ?_, ?_⟩
  · intro h
    rw [get_risk_profile, if_pos h]
  · intro h
    rw [get_risk_profile, if_neg (by omega), if_pos (by omega)]
  · intro h
    rw [get_risk_profile, if_neg (by omega), if_neg (by omega)]
  · simp only [riskScoreCode]
    congr 1
    · by_cases h1 : 20 < e.retire_age - e.age
      · rw [if_pos h1, if_pos h1]
      · rw [if_neg h1, if_neg h1]
        by_cases h2 : 10 < e.retire_age - e.age
        · rw [if_pos h2, if_pos ⟨h2, by omega⟩]
        · rw [if_neg h2, if_neg (fun h => h2 h.1)]
    · by_cases hc1 : e.debt / (if 0 < e.income then e.income else 1) < 3 / 10
      · rw [if_pos hc1, if_pos hc1]
      · have h31 : 3 / 10 ≤ e.debt / (if 0 < e.income then e.income else 1) :=
          not_lt.mp hc1
        by_cases hc2 : e.debt / (if 0 < e.income then e.income else 1) < 1
        · rw [if_neg hc1, if_pos hc2, if_neg hc1, if_pos ⟨h31, hc2⟩]
        · rw [if_neg hc1, if_neg hc2, if_neg hc1, if_neg (fun h => hc2 h.2)]

/-- C4 witness: the three labels at concrete profiles scoring 5, 3 and
0. -/
theorem get_risk_profile_spec_witness :
    get_risk_profile (FinancialEngine.init 35 85000 2 25000 40000 65 (5 / 2) 7) =
      "High (Growth Focused)" ∧
    get_risk_profile (FinancialEngine.init 49 100000 0 50000 0 60 3 7) =
      "Medium (Balanced)" ∧
    get_risk_profile (FinancialEngine.init 60 10000 0 15000 0 65 3 7) =
      "Low (Preservation Focused)" :=
  ⟨(get_risk_profile_spec _).1 (by norm_num [riskScoreCode, FinancialEngine.init]),
   (get_risk_profile_spec _).2.1 (by norm_num [riskScoreCode, FinancialEngine.init]),
   (get_risk_profile_spec _).2.2.1 (by norm_num [riskScoreCode, FinancialEngine.init])⟩

/-- C10: for non-negative debt and income the risk score lies in
`[0, 5]`, `get_risk_profile` always returns one of the three labels, and
the Medium label appears exactly for a score of 3. -/
theorem riskScoreCode_bounds (e : FinancialEngine)
    (hd : 0 ≤ e.debt) (hi : 0 ≤ e.income) :
    0 ≤ riskScoreCode e ∧ riskScoreCode e ≤ 5 ∧
    (get_risk_profile e = "High (Growth Focused)" ∨
      get_risk_profile e = "Medium (Balanced)" ∨
      get_risk_profile e = "Low (Preservation Focused)") ∧
    (get_risk_profile e = "Medium (Balanced)" ↔ riskScoreCode e = 3) := by
  have hb : 0 ≤ riskScoreCode e ∧ riskScoreCode e ≤ 5 := by
    simp only [riskScoreCode]
    split_ifs <;> norm_num
  refine ⟨hb.1, hb.2, ?_, ?_⟩
  · unfold get_risk_profile
    split_ifs <;> simp
  · unfold get_risk_profile
    split_ifs with h4 h3
    · exact iff_of_false (by simp) (by omega)
    · exact iff_of_true rfl (by omega)
    · exact iff_of_false (by simp) (by omega)

/-- C10 witness: the theorem applied to the concrete profile
`(35, 85000, 2, 25000, 40000, 65, 2.5, 7)`. -/
theorem riskScoreCode_bounds_witness :
    0 ≤ riskScoreCode (FinancialEngine.init 35 85000 2 25000 40000 65 (5 / 2) 7) ∧
    riskScoreCode (FinancialEngine.init 35 85000 2 25000 40000 65 (5 / 2) 7) ≤ 5 ∧
    (get_risk_profile (FinancialEngine.init 35 85000 2 25000 40000 65 (5 / 2) 7) =
        "High (Growth Focused)" ∨
      get_risk_profile (FinancialEngine.init 35 85000 2 25000 40000 65 (5 / 2) 7) =
        "Medium (Balanced)" ∨
      get_risk_profile (FinancialEngine.init 35 85000 2 25000 40000 65 (5 / 2) 7) =
        "Low (Preservation Focused)") ∧
    (get_risk_profile (FinancialEngine.init 35 85000 2 25000 40000 65 (5 / 2) 7) =
        "Medium (Balanced)" ↔
      riskScoreCode (FinancialEngine.init 35 85000 2 25000 40000 65 (5 / 2) 7) = 3) :=
  riskScoreCode_bounds (FinancialEngine.init 35 85000 2 25000 40000 65 (5 / 2) 7)
    (by norm_num [FinancialEngine.init]) (by norm_num [FinancialEngine.init])

/-- At the repository's default discount rate the rate-parameterized
insurance calculation succeeds and agrees with `calc_insurance_gap`. -/
theorem calc_insurance_gap_at_default (e : FinancialEngine) :
    calc_insurance_gap_at e INSURANCE_DISCOUNT_RATE =
      Except.ok (calc_insurance_gap e) := by
  by_cases hdep : 0 < e.dependents
  · simp only [calc_insurance_gap_at, calc_insurance_gap, INSURANCE_DISCOUNT_RATE,
      if_pos hdep]
    norm_num
  · simp [calc_insurance_gap_at, calc_insurance_gap, hdep]

/-- C8 counterexample: a profile violating every construction constraint
(`age 70 > retire_age 60`, negative income, debt and savings, dependents
`9 ∉ [0, 5]`) is accepted: the constructor returns an ordinary engine
holding the raw values, and calculations proceed on it (the retirement
target defensively returns `(0, 0)`); no validation error exists. -/
theorem init_accepts_invalid_inputs :
    FinancialEngine.init 70 (-1000) 9 (-5) (-3) 60 (5 / 2) 7 =
      { age := 70, income := -1000, dependents := 9, debt := -5, savings := -3,
        retire_age := 60, inflation_rate := 5 / 2 / 100,
        investment_return := 7 / 100 } ∧
    calc_retirement_target (FinancialEngine.init 70 (-1000) 9 (-5) (-3) 60 (5 / 2) 7) =
      (0, 0) := by
  refine ⟨rfl, ?_⟩
  norm_num [calc_retirement_target, FinancialEngine.init]

/-- C8 (amended): construction never fails — `__init__` stores the eight
inputs unvalidated (normalizing the two rates by 100), and a profile
past retirement is only handled downstream, by `calc_retirement_target`
returning `(0, 0)`. -/
theorem init_no_validation (age : ℤ) (income : ℚ) (dependents : ℤ)
    (debt savings : ℚ) (retire_age : ℤ)
    (inflation_rate investment_return : ℚ) (hbad : retire_age ≤ age) :
    FinancialEngine.init age income dependents debt savings retire_age
        inflation_rate investment_return =
      { age := age, income := income, dependents := dependents, debt := debt,
        savings := savings, retire_age := retire_age,
        inflation_rate := inflation_rate / 100,
        investment_return := investment_return / 100 } ∧
    calc_retirement_target
        (FinancialEngine.init age income dependents debt savings retire_age
          inflation_rate investment_return) =
      (0, 0) := by
  refine ⟨rfl, ?_⟩
  have h : retire_age - age ≤ (0 : ℤ) := sub_nonpos.mpr hbad
  simp [calc_retirement_target, FinancialEngine.init, h]

/-- C8 witness: the amended theorem applied to a concrete invalid
profile (`age 66 > retire_age 50`, negative amounts, dependents `6`). -/
theorem init_no_validation_witness :
    FinancialEngine.init 66 (-1) 6 (-2) (-4) 50 3 5 =
      { age := 66, income := -1, dependents := 6, debt := -2, savings := -4,
        retire_age := 50, inflation_rate := 3 / 100,
        investment_return := 5 / 100 } ∧
    calc_retirement_target (FinancialEngine.init 66 (-1) 6 (-2) (-4) 50 3 5) =
      (0, 0) :=
  init_no_validation 66 (-1) 6 (-2) (-4) 50 3 5 (by norm_num)

/-- C9 counterexample: with `INSURANCE_DISCOUNT_RATE` overridden to `0`
and a profile with dependents, the insurance calculation itself raises
the division-by-zero error — there is no "invalid constant" validation
anywhere (construction stores inputs without examining constants). -/
theorem discount_rate_zero_counterexample :
    calc_insurance_gap_at (FinancialEngine.init 35 85000 2 25000 40000 65 (5 / 2) 7) 0 =
      Except.error "ZeroDivisionError" := by
  norm_num [calc_insurance_gap_at, FinancialEngine.init]

/-- C9 (amended): overriding the discount-rate constant to `0` makes
`calc_insurance_gap` fail with a `ZeroDivisionError` at its own division
whenever dependents are present, while at the default constant `0.03`
the calculation succeeds; no constant validation exists. -/
theorem discount_rate_zero_division (e : FinancialEngine) (hdep : 0 < e.dependents) :
    calc_insurance_gap_at e 0 = Except.error "ZeroDivisionError" ∧
    calc_insurance_gap_at e INSURANCE_DISCOUNT_RATE =
      Except.ok (calc_insurance_gap e) := by
  refine ⟨?_, calc_insurance_gap_at_default e⟩
  simp [calc_insurance_gap_at, hdep]

/-- C9 witness: the amended theorem applied to a concrete profile with
three dependents. -/
theorem discount_rate_zero_division_witness :
    calc_insurance_gap_at (FinancialEngine.init 45 60000 3 0 0 65 3 7) 0 =
      Except.error "ZeroDivisionError" ∧
    calc_insurance_gap_at (FinancialEngine.init 45 60000 3 0 0 65 3 7)
        INSURANCE_DISCOUNT_RATE =
      Except.ok (calc_insurance_gap (FinancialEngine.init 45 60000 3 0 0 65 3 7)) :=
  discount_rate_zero_division (FinancialEngine.init 45 60000 3 0 0 65 3 7)
    (by norm_num [FinancialEngine.init])
